import Mathlib

set_option autoImplicit false
set_option maxRecDepth 4000
set_option linter.unusedVariables false

/-!
Shallow embedding of the core kernel of base-kernel and verification of its
specification: the physical frame allocator (src/kernel/memory/pmm.c), the
virtual memory manager with its page-table walker (src/kernel/memory/vmm.c),
the kernel heap (src/kernel/memory/kheap.c) and the adaptive-quantum scheduler
(src/kernel/scheduler.c).

Modelling conventions: machine integers (size_t / uint64_t) are Nat, with an
explicit wrap modulo 2^64 where the C code can underflow; the frame bitmap is
the Finset of the indices of its set bits; physical memory holding page tables
is a function from byte addresses to the 64-bit word stored there; linked
lists (free lists, run queues, VMA lists) are Lean lists with the head at the
front of the C list.
-/

/-! ### Constants (kernel.h, pmm.c) -/

def PAGE_SIZE : Nat := 4096

def PHYSICAL_MEMORY_LIMIT : Nat := 0xFFFFFFFF

def KERNEL_START_ADDR : Nat := 0x100000

def LOW_MEMORY_THRESHOLD : Nat := 128 * 1024 * 1024 / PAGE_SIZE

def PAGE_CACHE_SIZE : Nat := 8

/-- ALIGN_UP from types.h; the C macro is bitwise, equal to this rounding for
the power-of-two alignments used by the kernel. -/
def ALIGN_UP (v a : Nat) : Nat := (v + a - 1) / a * a

/-- size_t subtraction (`x -= y` wraps modulo 2^64). -/
def sub64 (a b : Nat) : Nat := (a + (2 ^ 64 - b % 2 ^ 64)) % 2 ^ 64

/-! ### Physical frame allocator (pmm.c) -/

/-- The static state of pmm.c.  `bitmap` is the set of indices of set bits of
`memory_bitmap`; `hot`/`cold` are the single-page frame caches
(`pf_cache_hot[0]` / `pf_cache_cold[0]`), head = top of the LIFO stack. -/
structure PmmState where
  bitmap : Finset Nat
  memory_start : Nat
  memory_bitmap_size : Nat
  total_memory_pages : Nat
  used_memory_pages : Nat
  hot : List Nat
  cold : List Nat
  alloc_requests : Nat
  alloc_failures : Nat
  total_pages_allocated : Nat
  total_pages_freed : Nat
deriving DecidableEq

/-- One iteration of the best-fit scan loop of pmm_alloc_pages (pmm.c:236-255).
The accumulator is (consecutive_free, start_page, best_start, best_size). -/
def allocScanStep (bm : Finset Nat) (num : Nat) (st : Nat × Nat × Nat × Nat)
    (i : Nat) : Nat × Nat × Nat × Nat :=
  if i ∈ bm then (0, st.2.1, st.2.2.1, st.2.2.2)
  else
    let cf := st.1 + 1
    let sp := if cf = 1 then i else st.2.1
    if cf = num then
      if st.2.2.2 > cf ∨ st.2.2.1 = 0 then (0, sp, sp, cf)
      else (0, sp, st.2.2.1, st.2.2.2)
    else (cf, sp, st.2.2.1, st.2.2.2)

/-- The scan loop: runs `allocScanStep` for indices i, i+1, ..., i+k-1. -/
def allocScanGo (bm : Finset Nat) (num : Nat) :
    Nat → Nat → (Nat × Nat × Nat × Nat) → Nat × Nat × Nat × Nat
  | _, 0, st => st
  | i, k + 1, st => allocScanGo bm num (i + 1) k (allocScanStep bm num st i)

/-- The full best-fit scan of pmm_alloc_pages over pages 0..total-1, starting
from consecutive_free = 0, start_page = 0, best_start = 0,
best_size = (size_t)-1. -/
def bestFitScan (bm : Finset Nat) (num total : Nat) : Nat × Nat × Nat × Nat :=
  allocScanGo bm num 0 total (0, 0, 0, 2 ^ 64 - 1)

/-- The downward neighbour scan of pmm_alloc_pages (pmm.c:277-285): first index
i with lo < i counting down from the argument whose bitmap bit is clear. -/
def findFreeDesc (bm : Finset Nat) (lo : Nat) : Nat → Option Nat
  | 0 => none
  | i + 1 =>
    if i + 1 ≤ lo then none
    else if i + 1 ∈ bm then findFreeDesc bm lo i
    else some (i + 1)

/-- pmm_alloc_pages (pmm.c:197-290).  Returns (address, new state); the C
function returns 0 for failure. -/
def pmm_alloc_pages (s : PmmState) (num_pages : Nat) : Nat × PmmState :=
  let s1 := { s with alloc_requests := s.alloc_requests + 1 }
  if num_pages = 0 then (0, s1)
  else if 1024 < num_pages then
    (0, { s1 with alloc_failures := s1.alloc_failures + 1 })
  else
    let free_pages := s1.total_memory_pages - s1.used_memory_pages
    let low_memory := free_pages < LOW_MEMORY_THRESHOLD
    if num_pages = 1 ∧ ¬low_memory ∧ 0 < s1.hot.length then
      -- hot-cache hit: pop the top entry, mark its bit, count it used
      let page_addr := s1.hot.headD 0
      let page_idx := page_addr / PAGE_SIZE
      (page_addr,
        { s1 with hot := s1.hot.tail,
                  bitmap := insert page_idx s1.bitmap,
                  used_memory_pages := s1.used_memory_pages + 1,
                  total_pages_allocated := s1.total_pages_allocated + 1 })
    else
      let scan := bestFitScan s1.bitmap num_pages s1.total_memory_pages
      let best_start := scan.2.2.1
      if best_start = 0 then
        (0, { s1 with alloc_failures := s1.alloc_failures + 1 })
      else
        let bitmap2 := (List.range num_pages).foldl
          (fun b j => insert (best_start + j) b) s1.bitmap
        let s2 := { s1 with
          bitmap := bitmap2,
          used_memory_pages := s1.used_memory_pages + num_pages,
          total_pages_allocated := s1.total_pages_allocated + num_pages }
        let allocated_addr := best_start * PAGE_SIZE
        let s3 :=
          if ¬low_memory ∧ num_pages = 1 then
            -- cache the highest-indexed free page; its bitmap bit stays clear
            match findFreeDesc bitmap2 (best_start + num_pages)
                (s2.total_memory_pages - 1) with
            | some i =>
              if s2.hot.length < PAGE_CACHE_SIZE then
                { s2 with hot := i * PAGE_SIZE :: s2.hot }
              else s2
            | none => s2
          else s2
        (allocated_addr, s3)

/-- pmm_free_pages (pmm.c:296-346). -/
def pmm_free_pages (s : PmmState) (addr num_pages : Nat) : PmmState :=
  if num_pages = 0 ∨ addr = 0 then s
  else
    let start_page := addr / PAGE_SIZE
    if s.total_memory_pages ≤ start_page then s
    else if ¬ ((List.range num_pages).all
        fun i => decide ((start_page + i) ∈ s.bitmap)) then
      s  -- double-free detected: no-op
    else if num_pages = 1 ∧
        LOW_MEMORY_THRESHOLD * 2 < s.total_memory_pages - s.used_memory_pages ∧
        s.hot.length < PAGE_CACHE_SIZE then
      -- push to hot cache; bitmap bit and used_memory_pages are left as-is
      { s with hot := addr :: s.hot,
               total_pages_freed := s.total_pages_freed + 1 }
    else
      { s with
        bitmap := (List.range num_pages).foldl
          (fun b i => Finset.erase b (start_page + i)) s.bitmap,
        used_memory_pages := sub64 s.used_memory_pages num_pages,
        total_pages_freed := s.total_pages_freed + num_pages }

def pmm_get_free_pages (s : PmmState) : Nat :=
  s.total_memory_pages - s.used_memory_pages

/-- A multiboot memory-map entry (base_addr, length, type). -/
structure MemMapEntry where
  base : Nat
  len : Nat
  typ : Nat
deriving DecidableEq

/-- pmm_parse_memory_map (pmm.c:103-191), given the entries of the multiboot
memory-map tag (the byte-level tag walk that locates them is abstracted), the
linker symbol _kernel_end and the multiboot info address.  Returns none where
the C code panics.  The bitmap bits set at init are the kernel-image pages and
the multiboot-info pages; the pages of the bitmap itself are counted in
used_memory_pages (pmm.c:154-156) but their bits are never set. -/
def pmm_parse_memory_map (entries : List MemMapEntry)
    (kernel_end mb_info_addr : Nat) : Option PmmState :=
  if mb_info_addr = 0 then none
  else
    let pick := entries.foldl
      (fun (acc : Nat × Nat) e =>
        if e.typ = 1 ∧ acc.2 < e.len then (e.base, e.len) else acc)
      (0, 0)
    if pick.1 = 0 then none
    else
      let total := PHYSICAL_MEMORY_LIMIT / PAGE_SIZE
      let bsize := ALIGN_UP (total / 8) PAGE_SIZE
      let bptr := ALIGN_UP kernel_end PAGE_SIZE
      let used_end := bptr + bsize
      let used0 := (used_end + PAGE_SIZE - 1) / PAGE_SIZE
      let kstart := KERNEL_START_ADDR / PAGE_SIZE
      let kend := ALIGN_UP kernel_end PAGE_SIZE / PAGE_SIZE
      let mbs := mb_info_addr / PAGE_SIZE
      let mbe := ALIGN_UP (mb_info_addr + 1024) PAGE_SIZE / PAGE_SIZE
      some
        { bitmap := Finset.Ico kstart kend ∪ Finset.Ico mbs mbe
          memory_start := pick.1
          memory_bitmap_size := bsize
          total_memory_pages := total
          used_memory_pages := used0 + (kend - kstart) + (mbe - mbs)
          hot := []
          cold := []
          alloc_requests := 0
          alloc_failures := 0
          total_pages_allocated := 0
          total_pages_freed := 0 }

/-- The bitmap-consistency invariant exactly as the specification states it:
count(set_bits) = total_frames - free_frame_count - sum of cache sizes, where
the free-frame count is pmm_get_free_pages. -/
abbrev bitmapConsistent (s : PmmState) : Prop :=
  s.bitmap.card =
    s.total_memory_pages - pmm_get_free_pages s - (s.hot.length + s.cold.length)

/-- A quiescent PMM state satisfying the spec's bitmap-consistency equation:
one frame (page 5) allocated and marked, empty caches. -/
def c1State : PmmState :=
  { bitmap := {5}
    memory_start := 0x200000
    memory_bitmap_size := 131072
    total_memory_pages := 1048575
    used_memory_pages := 1
    hot := []
    cold := []
    alloc_requests := 0
    alloc_failures := 0
    total_pages_allocated := 0
    total_pages_freed := 0 }

def c9Entries : List MemMapEntry := [⟨0x200000, 0x400000, 1⟩]

/-- The PMM state after pmm_parse_memory_map for scenario S1 (a 4 MiB
available region at 0x200000), with the kernel image ending at 0x150000 and
the multiboot info blob at 0x10000. -/
def c9InitState : PmmState :=
  { bitmap := Finset.Ico 256 336 ∪ Finset.Ico 16 17
    memory_start := 0x200000
    memory_bitmap_size := 131072
    total_memory_pages := 1048575
    used_memory_pages := 449
    hot := []
    cold := []
    alloc_requests := 0
    alloc_failures := 0
    total_pages_allocated := 0
    total_pages_freed := 0 }

/-- A concrete state for the C9 witness. -/
def c9WitnessState : PmmState :=
  { bitmap := {5}
    memory_start := 0x200000
    memory_bitmap_size := 131072
    total_memory_pages := 1048575
    used_memory_pages := 1
    hot := []
    cold := []
    alloc_requests := 0
    alloc_failures := 0
    total_pages_allocated := 0
    total_pages_freed := 0 }

/-! ### Scheduler (scheduler.c) -/

def PRIORITY_RT_MAX : Int := 99

def PRIORITY_NORMAL : Int := 100

def IO_WAIT_THRESHOLD : Nat := 50

def CPU_INTENSIVE_MIN : Nat := 80

inductive task_state_t where
  | ready
  | running
  | blocked
  | terminated
deriving DecidableEq

/-- workload_type_t; WORKLOAD_IO is modelled as io_bound. -/
inductive workload_type_t where
  | interactive
  | compute
  | io_bound
  | realtime
deriving DecidableEq

/-- task_t (scheduler.c:51-78).  `frame` models the five 64-bit words pushed
onto the initial stack by scheduler_create_task, top of stack last; the `next`
pointer is implicit in the queue lists. -/
structure task_t where
  id : Nat
  state : task_state_t
  stack_top : Nat
  stack_bottom : Nat
  priority : Int
  dynamic_priority : Int
  time_slice : Nat
  ticks_remaining : Nat
  workload : workload_type_t
  cpu_time : Nat
  io_wait_time : Nat
  last_run : Nat
  voluntary_yields : Nat
  cpu_affinity : Nat
  last_cpu : Int
  vm_context : Option Nat
  frame : List Nat
deriving DecidableEq

/-- cpu_runqueue_t (scheduler.c:81-91); ready_queue head = ready_queue_head. -/
structure cpu_runqueue_t where
  ready_queue : List task_t
  running_task : Option task_t
  total_tasks : Nat
  idle_time : Nat
  busy_time : Nat
  load : Nat
deriving DecidableEq

/-- The static state of scheduler.c. -/
structure SchedulerState where
  rq : Nat → cpu_runqueue_t
  num_cpus : Nat
  next_task_id : Nat
  global_ticks : Nat
  context_switches : Nat
  load_balances : Nat

/-- Replace one CPU's run queue (mutation of cpu_runqueues[i]). -/
def setRq (s : SchedulerState) (i : Nat) (q : cpu_runqueue_t) : SchedulerState :=
  { s with rq := fun j => if j = i then q else s.rq j }

/-- detect_workload (scheduler.c:110-133). -/
def detect_workload (t : task_t) : workload_type_t :=
  if t.priority ≤ PRIORITY_RT_MAX then .realtime
  else
    let total_time := t.cpu_time + t.io_wait_time
    if total_time = 0 then .interactive
    else
      let io_percent := t.io_wait_time * 100 / total_time
      let cpu_percent := t.cpu_time * 100 / total_time
      if IO_WAIT_THRESHOLD < io_percent then .io_bound
      else if CPU_INTENSIVE_MIN < cpu_percent then .compute
      else if 10 < t.voluntary_yields then .interactive
      else .interactive

/-- get_time_quantum (scheduler.c:136-145). -/
def get_time_quantum : workload_type_t → Nat
  | .interactive => 5
  | .compute => 20
  | .io_bound => 10
  | .realtime => 2

/-- scheduler_enqueue (scheduler.c:151-166). -/
def scheduler_enqueue (s : SchedulerState) (cpu : Nat) (t : task_t) :
    SchedulerState :=
  let q := s.rq cpu
  setRq s cpu
    { q with ready_queue := q.ready_queue ++ [t],
             total_tasks := q.total_tasks + 1,
             load := q.load + 1 }

/-- scheduler_dequeue (scheduler.c:168-185). -/
def scheduler_dequeue (s : SchedulerState) (cpu : Nat) :
    Option task_t × SchedulerState :=
  match (s.rq cpu).ready_queue with
  | [] => (none, s)
  | t :: rest =>
    (some t,
     setRq s cpu { s.rq cpu with ready_queue := rest,
                                 load := (s.rq cpu).load - 1 })

/-- The victim-selection loop of balance_load (scheduler.c:199-209):
(busiest_cpu, max_load), updated when load > max_load + 1. -/
def balanceScan (s : SchedulerState) (cpu : Nat) : Int × Nat :=
  (List.range s.num_cpus).foldl
    (fun acc i =>
      if i = cpu then acc
      else if acc.2 + 1 < (s.rq i).load then (Int.ofNat i, (s.rq i).load)
      else acc)
    (-1, 0)

/-- balance_load (scheduler.c:191-223).  Note: the task's affinity mask is
never consulted. -/
def balance_load (s : SchedulerState) (cpu : Nat) : SchedulerState :=
  if 0 < (s.rq cpu).load then s
  else
    let scan := balanceScan s cpu
    if 0 ≤ scan.1 ∧ 2 < scan.2 then
      let r := scheduler_dequeue s scan.1.toNat
      match r.1 with
      | some stolen =>
        let s2 := scheduler_enqueue r.2 cpu { stolen with last_cpu := Int.ofNat cpu }
        { s2 with load_balances := s2.load_balances + 1 }
      | none => r.2
    else s

/-- scheduler_create_task (scheduler.c:281-339).  The addresses returned by
kmalloc_tracked for the stack are abstracted into the stack_base parameter;
the C code leaves last_run uninitialised, modelled as 0. -/
def scheduler_create_task (s : SchedulerState) (entry : Option Nat) (arg : Nat)
    (stack_size : Nat) (priority : Int) (stack_base : Nat) :
    Int × SchedulerState :=
  if entry = none ∨ stack_size < PAGE_SIZE then (-1, s)
  else
    let top := stack_base + stack_size
    let sp0 := top - 16 * 8
    let t : task_t :=
      { id := s.next_task_id
        state := .ready
        stack_bottom := stack_base
        stack_top := sp0 - 40
        priority := priority
        dynamic_priority := priority
        time_slice := get_time_quantum .interactive
        ticks_remaining := get_time_quantum .interactive
        workload := .interactive
        cpu_time := 0
        io_wait_time := 0
        last_run := 0
        voluntary_yields := 0
        cpu_affinity := 0xFFFFFFFF
        last_cpu := 0
        vm_context := none
        frame := [entry.getD 0, 0x08, 0x202, sp0 - 24, 0x10] }
    let s1 := { s with next_task_id := s.next_task_id + 1 }
    (Int.ofNat t.id, scheduler_enqueue s1 0 t)

/-- scheduler_create_task_fork (scheduler.c:502-507): passes a NULL entry
point and a 4096-byte stack to scheduler_create_task. -/
def scheduler_create_task_fork (s : SchedulerState) : Int × SchedulerState :=
  scheduler_create_task s none 0 4096 PRIORITY_NORMAL 0

/-- scheduler_schedule (scheduler.c:387-420). -/
def scheduler_schedule (s : SchedulerState) : SchedulerState :=
  let cpu := 0
  let current := (s.rq cpu).running_task
  let r := scheduler_dequeue s cpu
  match r.1 with
  | none => s
  | some next =>
    let s2 :=
      match current with
      | some cur =>
        if cur.state = .running
        then scheduler_enqueue r.2 cpu { cur with state := .ready }
        else r.2
      | none => r.2
    let next' := { next with state := .running, last_run := s.global_ticks,
                             last_cpu := Int.ofNat cpu }
    let s3 := setRq s2 cpu { s2.rq cpu with running_task := some next' }
    { s3 with context_switches := s3.context_switches + 1 }

/-- scheduler_yield (scheduler.c:426-438). -/
def scheduler_yield (s : SchedulerState) : SchedulerState :=
  let cpu := 0
  match (s.rq cpu).running_task with
  | some cur =>
    let cur' := { cur with voluntary_yields := cur.voluntary_yields + 1,
                           ticks_remaining := 0 }
    scheduler_schedule (setRq s cpu { s.rq cpu with running_task := some cur' })
  | none => scheduler_schedule s

/-- scheduler_tick (scheduler.c:345-381). -/
def scheduler_tick (s : SchedulerState) : SchedulerState :=
  let s0 := { s with global_ticks := s.global_ticks + 1 }
  let cpu := 0
  match (s0.rq cpu).running_task with
  | none => s0
  | some cur =>
    let cur1 := { cur with cpu_time := cur.cpu_time + 1 }
    let cur2 :=
      if 0 < cur1.ticks_remaining
      then { cur1 with ticks_remaining := cur1.ticks_remaining - 1 }
      else cur1
    let s1 := setRq s0 cpu
      { s0.rq cpu with running_task := some cur2,
                       busy_time := (s0.rq cpu).busy_time + 1 }
    let s2 :=
      if cur2.ticks_remaining = 0 then
        let w := detect_workload cur2
        let q := get_time_quantum w
        let cur3 := { cur2 with workload := w, time_slice := q,
                                ticks_remaining := q }
        scheduler_schedule
          (setRq s1 cpu { s1.rq cpu with running_task := some cur3 })
      else s1
    if s2.global_ticks % 100 = 0 then balance_load s2 cpu else s2

/-! ### Concrete scheduler states for C6 and C7 -/

def emptyRq : cpu_runqueue_t :=
  { ready_queue := [], running_task := none, total_tasks := 0,
    idle_time := 0, busy_time := 0, load := 0 }

/-- A ready task pinned to CPU 1 by its affinity mask (bit 1 only). -/
def c6TaskA : task_t :=
  { id := 10, state := .ready, stack_top := 0, stack_bottom := 0,
    priority := 100, dynamic_priority := 100, time_slice := 5,
    ticks_remaining := 5, workload := .interactive, cpu_time := 0,
    io_wait_time := 0, last_run := 0, voluntary_yields := 0,
    cpu_affinity := 2, last_cpu := 1, vm_context := none, frame := [] }

def c6TaskB : task_t := { c6TaskA with id := 11, cpu_affinity := 0xFFFFFFFF }

def c6TaskC : task_t := { c6TaskA with id := 12, cpu_affinity := 0xFFFFFFFF }

/-- Two CPUs; CPU 0 idle, CPU 1 holding three ready tasks whose head is
pinned to CPU 1. -/
def c6State : SchedulerState :=
  { rq := fun i =>
      if i = 1 then
        { emptyRq with ready_queue := [c6TaskA, c6TaskB, c6TaskC],
                       total_tasks := 3, load := 3 }
      else emptyRq
    num_cpus := 2, next_task_id := 13, global_ticks := 0,
    context_switches := 0, load_balances := 0 }

/-- Two CPUs; CPU 0 idle, CPU 1 with load exactly 2. -/
def c6State2 : SchedulerState :=
  { rq := fun i =>
      if i = 1 then
        { emptyRq with ready_queue := [c6TaskB, c6TaskC],
                       total_tasks := 2, load := 2 }
      else emptyRq
    num_cpus := 2, next_task_id := 13, global_ticks := 0,
    context_switches := 0, load_balances := 0 }

/-- A freshly created running task (never ticked) on CPU 0. -/
def c7Task : task_t :=
  { id := 1, state := .running, stack_top := 0, stack_bottom := 0,
    priority := 100, dynamic_priority := 100, time_slice := 5,
    ticks_remaining := 3, workload := .interactive, cpu_time := 0,
    io_wait_time := 0, last_run := 0, voluntary_yields := 0,
    cpu_affinity := 0xFFFFFFFF, last_cpu := 0, vm_context := none, frame := [] }

def c7State : SchedulerState :=
  { rq := fun i =>
      if i = 0 then { emptyRq with running_task := some c7Task } else emptyRq
    num_cpus := 1, next_task_id := 2, global_ticks := 0,
    context_switches := 0, load_balances := 0 }

/-- The C7 witness task: one tick left in its slice, io_wait_time 0. -/
def c7WTask : task_t := { c7Task with ticks_remaining := 1, cpu_time := 7 }

def c7WState : SchedulerState :=
  { rq := fun i =>
      if i = 0 then { emptyRq with running_task := some c7WTask } else emptyRq
    num_cpus := 1, next_task_id := 2, global_ticks := 41,
    context_switches := 0, load_balances := 0 }

/-! ### Kernel heap (kheap.c) -/

def HEAP_START : Nat := 0x300000

def HEAP_SIZE : Nat := 0x400000

def HEAP_END : Nat := HEAP_START + HEAP_SIZE

def NUM_SIZE_CLASSES : Nat := 9

def LARGE_ALLOC_THRESHOLD : Nat := 4096

def size_classes : List Nat := [16, 32, 64, 128, 256, 512, 1024, 2048, 4096]

def sizeClassSize (i : Nat) : Nat := size_classes.getD i 0

/-- free_node_t (kheap.c:40-43): the (next, size) header stored inside a free
object; the next chain is the list order of the class free list. -/
structure free_node_t where
  addr : Nat
  size : Nat
deriving DecidableEq

/-- size_class_t (kheap.c:46-52). -/
structure size_class_t where
  free_list : List free_node_t
  total_objects : Nat
  free_objects : Nat
  alloc_count : Nat
  free_count : Nat
deriving DecidableEq

/-- The static state of kheap.c (the allocation-tracking record list is not
modelled; no claim depends on it). -/
structure KheapState where
  size_class_allocators : Nat → size_class_t
  heap_next_free : Nat
  heap_initialized : Bool
  total_allocated : Nat
  peak_usage : Nat
  allocation_count : Nat
  free_count : Nat
  pmm : PmmState

/-- Mutation of size_class_allocators[i]. -/
def setClass (s : KheapState) (i : Nat) (sc : size_class_t) : KheapState :=
  { s with size_class_allocators :=
      fun j => if j = i then sc else s.size_class_allocators j }

/-- get_size_class_index (kheap.c:89-97); none models -1. -/
def get_size_class_index (size : Nat) : Option Nat :=
  (List.range NUM_SIZE_CLASSES).find? (fun i => decide (size ≤ sizeClassSize i))

/-- allocate_slab (kheap.c:100-114): bump allocation from the heap range. -/
def allocate_slab (s : KheapState) (obj_size count : Nat) :
    Option (Nat × KheapState) :=
  let slab_size := ALIGN_UP (obj_size * count) 16
  if HEAP_END < s.heap_next_free + slab_size then none
  else some (s.heap_next_free,
    { s with heap_next_free := s.heap_next_free + slab_size })

/-- init_size_class (kheap.c:117-148): one slab of 32 objects, linked into the
free list in index order (head = highest-addressed object). -/
def init_size_class (s : KheapState) (class_idx : Nat) : Option KheapState :=
  let obj_size := sizeClassSize class_idx
  match allocate_slab s obj_size 32 with
  | none => none
  | some (slab, s1) =>
    let sc : size_class_t :=
      { free_list := (List.range 32).foldl
          (fun l i => ⟨slab + i * obj_size, obj_size⟩ :: l) []
        total_objects := 32
        free_objects := 32
        alloc_count := 0
        free_count := 0 }
    some (setClass s1 class_idx sc)

/-- expand_size_class (kheap.c:151-180). -/
def expand_size_class (s : KheapState) (class_idx : Nat) : Option KheapState :=
  let obj_size := sizeClassSize class_idx
  let sc := s.size_class_allocators class_idx
  let new_objects := if sc.total_objects < 16 then 16 else sc.total_objects
  match allocate_slab s obj_size new_objects with
  | none => none
  | some (slab, s1) =>
    some (setClass s1 class_idx
      { sc with
        free_list := (List.range new_objects).foldl
          (fun l i => ⟨slab + i * obj_size, obj_size⟩ :: l) sc.free_list,
        total_objects := sc.total_objects + new_objects,
        free_objects := sc.free_objects + new_objects })

/-- kheap_init (kheap.c:229-252); when a class init fails the C code returns
with heap_initialized still false and the earlier classes set up. -/
def kheap_init (s : KheapState) : KheapState :=
  let r := (List.range NUM_SIZE_CLASSES).foldl
    (fun (acc : KheapState × Bool) i =>
      if acc.2 then
        match init_size_class acc.1 i with
        | some s2 => (s2, true)
        | none => (acc.1, false)
      else acc)
    (s, true)
  if r.2 then { r.1 with heap_initialized := true } else r.1

/-- The small-object path of kmalloc (kheap.c:287-313), given the chosen size
class.  The C code zeroes the returned object, destroying the free_node_t
header; the model drops the node from the list. -/
def kmalloc_small (s1 : KheapState) (class_idx : Nat) : Nat × KheapState :=
  let step : Option KheapState :=
    if (s1.size_class_allocators class_idx).free_objects = 0
    then expand_size_class s1 class_idx else some s1
  match step with
  | none => (0, s1)
  | some s2 =>
    match (s2.size_class_allocators class_idx).free_list with
    | [] => (0, s2)
    | node :: rest =>
      let sc := s2.size_class_allocators class_idx
      (node.addr, setClass s2 class_idx
        { sc with free_list := rest, free_objects := sc.free_objects - 1,
                  alloc_count := sc.alloc_count + 1 })

/-- kmalloc (kheap.c:254-314). -/
def kmalloc (s : KheapState) (size : Nat) : Nat × KheapState :=
  if size = 0 then (0, s)
  else if s.heap_initialized = false then (0, s)
  else
    let s1 := { s with allocation_count := s.allocation_count + 1 }
    let size1 := if size < 16 then 16 else size
    let size2 := ALIGN_UP size1 16
    match get_size_class_index size2 with
    | some class_idx => kmalloc_small s1 class_idx
    | none =>
      if LARGE_ALLOC_THRESHOLD < size2 then
        -- large allocation straight from the PMM
        let pages := (size2 + PAGE_SIZE - 1) / PAGE_SIZE
        let r := pmm_alloc_pages s1.pmm pages
        let s2 := { s1 with pmm := r.2 }
        if r.1 ≠ 0 then
          let s3 := { s2 with
            total_allocated := s2.total_allocated + pages * PAGE_SIZE }
          (r.1, if s3.peak_usage < s3.total_allocated
                then { s3 with peak_usage := s3.total_allocated } else s3)
        else (r.1, s2)
      else kmalloc_small s1 (NUM_SIZE_CLASSES - 1)

/-- kfree (kheap.c:351-390).  The class-determination loop (kheap.c:368-374)
is a stub that sets class_idx := 0 on its first iteration and breaks, so
every in-range pointer is pushed onto size class 0 with stored size 16; a
pointer outside the heap range (a large allocation) is ignored with a
warning and its frames are never released. -/
def kfree (s : KheapState) (ptr : Nat) : KheapState :=
  if ptr = 0 then s
  else if s.heap_initialized = false then s
  else
    let s1 := { s with free_count := s.free_count + 1 }
    if ptr < HEAP_START ∨ HEAP_END ≤ ptr then s1
    else
      let class_idx : Int := if 0 < NUM_SIZE_CLASSES then 0 else -1
      if class_idx < 0 then s1
      else
        let i := class_idx.toNat
        let sc := s1.size_class_allocators i
        setClass s1 i
          { sc with free_list := ⟨ptr, sizeClassSize i⟩ :: sc.free_list,
                    free_objects := sc.free_objects + 1,
                    free_count := sc.free_count + 1 }

/-- An uninitialised heap state feeding kheap_init. -/
def kheapBase : KheapState :=
  { size_class_allocators := fun j => ⟨[], 0, 0, 0, 0⟩
    heap_next_free := HEAP_START
    heap_initialized := false
    total_allocated := 0
    peak_usage := 0
    allocation_count := 0
    free_count := 0
    pmm := c1State }

/-! ### Virtual memory manager and page-table walker (vmm.c) -/

def PROT_NONE : Nat := 0x0

def PROT_READ : Nat := 0x1

def PROT_WRITE : Nat := 0x2

def PROT_EXEC : Nat := 0x4

def MAP_SHARED : Nat := 0x01

def MAP_PRIVATE : Nat := 0x02

def MAP_FIXED : Nat := 0x10

def MAP_ANONYMOUS : Nat := 0x20

def PF_WRITE : Nat := 2

/-- vma_t (vmm.c:46-60); `end` is spelt fin, the next pointer is the list
order. -/
structure vma_t where
  start : Nat
  fin : Nat
  prot : Nat
  flags : Nat
  file : Option Nat
  offset : Nat
  ref_count : Nat
deriving DecidableEq

/-- Physical memory, as the 64-bit word stored at each byte address, plus the
frame allocator it draws from. -/
structure Machine where
  mem : Nat → Nat
  pmm : PmmState

def writeU64 (m : Machine) (a v : Nat) : Machine :=
  { m with mem := fun x => if x = a then v else m.mem x }

/-- memset(frame, 0, PAGE_SIZE). -/
def zeroFrame (m : Machine) (f : Nat) : Machine :=
  { m with mem := fun x => if f ≤ x ∧ x < f + PAGE_SIZE then 0 else m.mem x }

/-- memcpy(dst, src, PAGE_SIZE). -/
def copyFrame (m : Machine) (dst src : Nat) : Machine :=
  { m with mem := fun x =>
      if dst ≤ x ∧ x < dst + PAGE_SIZE then m.mem (src + (x - dst))
      else m.mem x }

def setBit (v i : Nat) : Nat := if v.testBit i then v else v + 2 ^ i

def clearBit (v i : Nat) : Nat := if v.testBit i then v - 2 ^ i else v

def assignBit (v i : Nat) (b : Bool) : Nat :=
  if b then setBit v i else clearBit v i

/-- Overwrite the 40-bit address field (bits 12-51) of a PTE word. -/
def setPteAddress (v fa : Nat) : Nat :=
  v % 2 ^ 12 + fa % 2 ^ 40 * 2 ^ 12 + v / 2 ^ 52 * 2 ^ 52

/-- One level of vmm_get_pte (vmm.c:120-147): test the present bit of
table[idx]; when absent and create is set, allocate a frame from the PMM,
zero it and install it with Present+Writable; return the next table base
(entry & ~0xFFF). -/
def vmm_walk_level (m : Machine) (table idx : Nat) (create : Bool) :
    Option Nat × Machine :=
  let a := table + idx * 8
  if m.mem a &&& 1 = 0 then
    if create = false then (none, m)
    else
      let r := pmm_alloc_pages m.pmm 1
      let m1 := { m with pmm := r.2 }
      if r.1 = 0 then (none, m1)
      else
        let m2 := writeU64 (zeroFrame m1 r.1) a (r.1 ||| 3)
        (some (m2.mem a / 4096 * 4096), m2)
  else (some (m.mem a / 4096 * 4096), m)

/-- vmm_get_pte (vmm.c:108-150): returns the byte address of the leaf PTE. -/
def vmm_get_pte (m : Machine) (page_dir vaddr : Nat) (create : Bool) :
    Option Nat × Machine :=
  let pml4_idx := vaddr >>> 39 &&& 0x1FF
  let pdp_idx := vaddr >>> 30 &&& 0x1FF
  let pd_idx := vaddr >>> 21 &&& 0x1FF
  let pt_idx := vaddr >>> 12 &&& 0x1FF
  match vmm_walk_level m page_dir pml4_idx create with
  | (none, m1) => (none, m1)
  | (some pdp, m1) =>
    match vmm_walk_level m1 pdp pdp_idx create with
    | (none, m2) => (none, m2)
    | (some pd, m2) =>
      match vmm_walk_level m2 pd pd_idx create with
      | (none, m3) => (none, m3)
      | (some pt, m3) => (some (pt + pt_idx * 8), m3)

/-- vmm_map_page (vmm.c:153-171): sets present, writable iff prot allows
write, user, no-execute iff prot forbids exec, and the frame address; other
PTE bits are left as they were (field assignments in C). -/
def vmm_map_page (m : Machine) (page_dir vaddr paddr prot : Nat) :
    Int × Machine :=
  match vmm_get_pte m page_dir vaddr true with
  | (none, m1) => (-1, m1)
  | (some pa, m1) =>
    let v0 := m1.mem pa
    let v1 := setBit v0 0
    let v2 := assignBit v1 1 (decide (prot &&& PROT_WRITE ≠ 0))
    let v3 := setBit v2 2
    let v4 := assignBit v3 63 (decide (prot &&& PROT_EXEC = 0))
    let v5 := setPteAddress v4 (paddr >>> 12)
    (0, writeU64 m1 pa v5)

/-- vmm_unmap_page (vmm.c:174-184): frees the leaf frame back to the PMM and
zeroes the PTE when a present leaf exists. -/
def vmm_unmap_page (m : Machine) (page_dir vaddr : Nat) : Machine :=
  match vmm_get_pte m page_dir vaddr false with
  | (none, m1) => m1
  | (some pa, m1) =>
    if (m1.mem pa).testBit 0 then
      let paddr := (m1.mem pa >>> 12) % 2 ^ 40 * 4096
      let m2 := { m1 with pmm := pmm_free_pages m1.pmm paddr 1 }
      writeU64 m2 pa 0
    else m1

/-- vm_context_t (kernel.h:92-97). -/
structure vm_context_t where
  vma_list : List vma_t
  brk : Nat
  mmap_base : Nat
  page_dir : Nat
deriving DecidableEq

/-- The VMM state: physical memory and PMM, the kernel VM context, and the
page-fault statistics of vmm.c. -/
structure VmmState where
  mac : Machine
  ctx : vm_context_t
  page_faults_total : Nat
  page_faults_minor : Nat
  page_faults_major : Nat
  cow_faults : Nat

/-- vmm_find_vma (vmm.c:209-219). -/
def vmm_find_vma : List vma_t → Nat → Option vma_t
  | [], _ => none
  | v :: rest, a =>
    if v.start ≤ a ∧ a < v.fin then some v else vmm_find_vma rest a

/-- The page loop of vmm_munmap (vmm.c:306-308): vmm_unmap_page on every
page-sized step from s below e. -/
def vmm_unmap_range (m : Machine) (page_dir s e : Nat) : Machine :=
  (List.range ((e - s + PAGE_SIZE - 1) / PAGE_SIZE)).foldl
    (fun mm i => vmm_unmap_page mm page_dir (s + i * PAGE_SIZE)) m

/-- The VMA walk of vmm_munmap (vmm.c:298-316): it breaks at the first VMA
starting at or beyond the end of the range, unmaps every page of each
intersecting VMA (not only the intersection) and removes the whole VMA;
there is no splitting. -/
def vmm_munmap_go (page_dir s e : Nat) :
    Machine → List vma_t → List vma_t × Machine
  | m, [] => ([], m)
  | m, v :: rest =>
    if e ≤ v.start then (v :: rest, m)
    else if s < v.fin ∧ v.start < e then
      vmm_munmap_go page_dir s e (vmm_unmap_range m page_dir v.start v.fin) rest
    else
      let r := vmm_munmap_go page_dir s e m rest
      (v :: r.1, r.2)

/-- vmm_munmap (vmm.c:293-319); the C function always returns 0. -/
def vmm_munmap (st : VmmState) (addr length : Nat) : VmmState :=
  let s := addr
  let e := s + ALIGN_UP length PAGE_SIZE
  let r := vmm_munmap_go st.ctx.page_dir s e st.mac st.ctx.vma_list
  { st with mac := r.2, ctx := { st.ctx with vma_list := r.1 } }

/-- The demand-paging tail of vmm_page_fault_handler (vmm.c:375-394):
allocate a zeroed frame and map it with the VMA's protection; the
vmm_map_page result is ignored, as in the C code. -/
def vmmDemandPage (st : VmmState) (vma : vma_t) (fault_addr : Nat) :
    VmmState :=
  let st2 := { st with page_faults_minor := st.page_faults_minor + 1 }
  let page_addr := fault_addr - fault_addr % PAGE_SIZE
  let r := pmm_alloc_pages st2.mac.pmm 1
  let st3 := { st2 with mac := { st2.mac with pmm := r.2 } }
  if r.1 = 0 then st3
  else
    let mac2 := zeroFrame st3.mac r.1
    let mp := vmm_map_page mac2 st3.ctx.page_dir page_addr r.1 vma.prot
    { st3 with mac := mp.2 }

/-- vmm_page_fault_handler (vmm.c:325-394).  The only permission test is for
writes to non-writable VMAs; read and instruction faults are never checked
against the protection.  The COW branch repoints the PTE at a copied frame
and sets it writable; no reference count exists and the old frame is never
freed. -/
def vmm_page_fault_handler (st : VmmState) (fault_addr error_code : Nat) :
    VmmState :=
  let st1 := { st with page_faults_total := st.page_faults_total + 1 }
  match vmm_find_vma st1.ctx.vma_list fault_addr with
  | none => st1
  | some vma =>
    if error_code &&& PF_WRITE ≠ 0 ∧ vma.prot &&& PROT_WRITE = 0 then st1
    else
      let w := vmm_get_pte st1.mac st1.ctx.page_dir fault_addr false
      let stw := { st1 with mac := w.2 }
      match w.1 with
      | some pa =>
        if (stw.mac.mem pa).testBit 0 ∧ error_code &&& PF_WRITE ≠ 0 ∧
            vma.flags &&& MAP_PRIVATE ≠ 0 then
          let st2 := { stw with cow_faults := stw.cow_faults + 1 }
          let old_page := (st2.mac.mem pa >>> 12) % 2 ^ 40 * 4096
          let r := pmm_alloc_pages st2.mac.pmm 1
          let st3 := { st2 with mac := { st2.mac with pmm := r.2 } }
          if r.1 = 0 then st3
          else
            let mac2 := copyFrame st3.mac r.1 old_page
            let v := mac2.mem pa
            let v2 := setBit (setPteAddress v (r.1 >>> 12)) 1
            { st3 with mac := writeU64 mac2 pa v2 }
        else vmmDemandPage stw vma fault_addr
      | none => vmmDemandPage stw vma fault_addr

/-! ### Concrete VMM states for C2, C4 and C5 -/

/-- Page tables covering vaddr 0x400000: PML4 frame at 0x1000, PDPT at
0x2000, PD at 0x3000, PT at 0x4000, with the given leaf PTE word. -/
def tableMem (pte0 : Nat) : Nat → Nat := fun a =>
  if a = 0x1000 then 0x2003
  else if a = 0x2000 then 0x3003
  else if a = 0x3010 then 0x4003
  else if a = 0x4000 then pte0
  else 0

/-- A PMM state whose hot cache holds frame 0x8000 and whose bitmap marks the
table frames 1-4, the COW source frame 7 and the cached frame 8. -/
def c2Pmm : PmmState :=
  { bitmap := {1, 2, 3, 4, 7, 8}
    memory_start := 0x200000
    memory_bitmap_size := 131072
    total_memory_pages := 1048575
    used_memory_pages := 100
    hot := [0x8000]
    cold := []
    alloc_requests := 0
    alloc_failures := 0
    total_pages_allocated := 0
    total_pages_freed := 0 }

/-- A writable PRIVATE|ANONYMOUS VMA covering [0x400000, 0x401000). -/
def c2Vma : vma_t :=
  { start := 0x400000, fin := 0x401000, prot := 3, flags := 0x22,
    file := none, offset := 0, ref_count := 1 }

/-- COW scenario: the leaf PTE for 0x400000 is present, read-only, user,
pointing at frame 7 (word 0x7005). -/
def c2State : VmmState :=
  { mac := { mem := tableMem 0x7005, pmm := c2Pmm }
    ctx := { vma_list := [c2Vma], brk := 0x40000000,
             mmap_base := 0x60000000, page_dir := 0x1000 }
    page_faults_total := 0, page_faults_minor := 0,
    page_faults_major := 0, cow_faults := 0 }

/-- A PROT_NONE PRIVATE|ANONYMOUS VMA covering [0x400000, 0x401000). -/
def c5Vma : vma_t :=
  { start := 0x400000, fin := 0x401000, prot := PROT_NONE, flags := 0x22,
    file := none, offset := 0, ref_count := 1 }

/-- PROT_NONE scenario: tables present down to the leaf, leaf PTE zero. -/
def c5State : VmmState :=
  { mac := { mem := tableMem 0, pmm := c2Pmm }
    ctx := { vma_list := [c5Vma], brk := 0x40000000,
             mmap_base := 0x60000000, page_dir := 0x1000 }
    page_faults_total := 0, page_faults_minor := 0,
    page_faults_major := 0, cow_faults := 0 }

/-- A read-only VMA for the C5 witness. -/
def c5wVma : vma_t :=
  { start := 0x400000, fin := 0x401000, prot := PROT_READ, flags := 0x22,
    file := none, offset := 0, ref_count := 1 }

def c5wState : VmmState :=
  { mac := { mem := tableMem 0, pmm := c2Pmm }
    ctx := { vma_list := [c5wVma], brk := 0x40000000,
             mmap_base := 0x60000000, page_dir := 0x1000 }
    page_faults_total := 0, page_faults_minor := 0,
    page_faults_major := 0, cow_faults := 0 }

/-- One VMA [0x1000, 0x4000) with no pages mapped (empty page tables). -/
def c4Vma : vma_t :=
  { start := 0x1000, fin := 0x4000, prot := 3, flags := 0x22,
    file := none, offset := 0, ref_count := 1 }

def c4State : VmmState :=
  { mac := { mem := fun a => 0, pmm := c2Pmm }
    ctx := { vma_list := [c4Vma], brk := 0x40000000,
             mmap_base := 0x60000000, page_dir := 0x1000 }
    page_faults_total := 0, page_faults_minor := 0,
    page_faults_major := 0, cow_faults := 0 }

/-- A sorted two-VMA list for the C4 witness, the first partially overlapped
by [0x1000, 0x2000). -/
def c4wList : List vma_t :=
  [{ start := 0x1000, fin := 0x3000, prot := 3, flags := 0x22,
     file := none, offset := 0, ref_count := 1 },
   { start := 0x5000, fin := 0x6000, prot := 3, flags := 0x22,
     file := none, offset := 0, ref_count := 1 }]

/-! ## Theorems -/

/-- C1: bitmap consistency is not preserved by pmm_free_pages.  From a state
satisfying the spec's equation, freeing one allocated frame takes the
hot-cache path, which pushes the frame while leaving both its bitmap bit set
and used_memory_pages undecremented, so count(set_bits) stays equal to the
used-page count while the right-hand side drops by the cache size. -/
theorem C1_free_breaks_bitmap_consistency :
    bitmapConsistent c1State ∧
    ¬ bitmapConsistent (pmm_free_pages c1State 0x5000 1) := by
  decide
/-! ### Allocator scan lemmas (for single-page allocations) -/

theorem allocScanStep_stable (bm : Finset Nat) (st : Nat × Nat × Nat × Nat)
    (i : Nat) (h1 : st.2.2.1 ≠ 0) (h2 : st.2.2.2 = 1) :
    (allocScanStep bm 1 st i).2.2.1 = st.2.2.1 ∧
    (allocScanStep bm 1 st i).2.2.2 = 1 := by
  by_cases hm : i ∈ bm
  · simp [allocScanStep, hm, h2]
  · by_cases hcf : st.1 + 1 = 1
    · simp [allocScanStep, hm, hcf, h2, h1]
    · simp [allocScanStep, hm, hcf, h2]

theorem allocScanGo_stable (bm : Finset Nat) (k : Nat) :
    ∀ (i : Nat) (st : Nat × Nat × Nat × Nat), st.2.2.1 ≠ 0 → st.2.2.2 = 1 →
      (allocScanGo bm 1 i k st).2.2.1 = st.2.2.1 ∧
      (allocScanGo bm 1 i k st).2.2.2 = 1 := by
  induction k with
  | zero => intro i st h1 h2; exact ⟨rfl, h2⟩
  | succ k ih =>
    intro i st h1 h2
    have hs := allocScanStep_stable bm st i h1 h2
    have hrec := ih (i + 1) (allocScanStep bm 1 st i)
      (by rw [hs.1]; exact h1) hs.2
    exact ⟨hrec.1.trans hs.1, hrec.2⟩

theorem bestFitScan_one (bm : Finset Nat) (t : Nat) (ht : 2 ≤ t)
    (h0 : 0 ∉ bm) (h1 : 1 ∉ bm) :
    (bestFitScan bm 1 t).2.2.1 = 1 := by
  obtain ⟨k, rfl⟩ : ∃ k, t = k + 2 := ⟨t - 2, by omega⟩
  have e0 : allocScanStep bm 1 (0, 0, 0, 2 ^ 64 - 1) 0 = (0, 0, 0, 1) := by
    simp [allocScanStep, h0]
  have e1 : allocScanStep bm 1 (0, 0, 0, 1) 1 = (0, 1, 1, 1) := by
    simp [allocScanStep, h1]
  have e2 : bestFitScan bm 1 (k + 2)
      = allocScanGo bm 1 2 k
          (allocScanStep bm 1 (allocScanStep bm 1 (0, 0, 0, 2 ^ 64 - 1) 0) 1) :=
    rfl
  rw [e2, e0, e1]
  exact (allocScanGo_stable bm k 2 (0, 1, 1, 1) (by norm_num) rfl).1

/-- With pages 0 and 1 free, a single-page bitmap allocation hands out page 1
(page 0 is skipped because best_start = 0 doubles as the failure sentinel). -/
theorem pmm_alloc_one_scan (s : PmmState) (h0 : 0 ∉ s.bitmap) (h1 : 1 ∉ s.bitmap)
    (ht : 2 ≤ s.total_memory_pages) (hhot : s.hot = []) :
    (pmm_alloc_pages s 1).1 = PAGE_SIZE := by
  have hb := bestFitScan_one s.bitmap s.total_memory_pages ht h0 h1
  simp [pmm_alloc_pages, hhot, hb]

/-- C9 counterexample: after initialising the PFA over a 4 MiB available
region at 0x200000 (kernel image ending at 0x150000, boot info at 0x10000),
the first alloc_frames(1) returns 0x1000, not 0x200000: init never marks
non-available or sub-kernel memory as used, so the scan finds page 1 first. -/
theorem C9_counterexample :
    pmm_parse_memory_map c9Entries 0x150000 0x10000 = some c9InitState ∧
    (pmm_alloc_pages c9InitState 1).1 = 0x1000 ∧
    (0x1000 : Nat) ≠ 0x200000 := by
  refine ⟨by decide, ?_, by decide⟩
  have h := pmm_alloc_one_scan c9InitState (by decide) (by decide)
    (by decide) rfl
  simpa [PAGE_SIZE] using h

/-- C9 (amended): under the code's init for S1 the first alloc_frames(1)
returns 0x1000; and after free_frames(p, 1) of an allocated frame p with the
free count above twice the low-watermark and the hot cache not full, the next
alloc_frames(1) returns p by a LIFO pop of the hot cache. -/
theorem C9_first_alloc_and_hot_cache_lifo :
    (pmm_alloc_pages c9InitState 1).1 = 0x1000 ∧
    ∀ (s : PmmState) (addr : Nat),
      addr ≠ 0 →
      addr / PAGE_SIZE < s.total_memory_pages →
      addr / PAGE_SIZE ∈ s.bitmap →
      LOW_MEMORY_THRESHOLD * 2 < s.total_memory_pages - s.used_memory_pages →
      s.hot.length < PAGE_CACHE_SIZE →
      (pmm_alloc_pages (pmm_free_pages s addr 1) 1).1 = addr := by
  constructor
  · have h := pmm_alloc_one_scan c9InitState (by decide) (by decide)
      (by decide) rfl
    simpa [PAGE_SIZE] using h
  · intro s addr ha hr hb hfree hroom
    have hfree' : pmm_free_pages s addr 1 =
        { s with hot := addr :: s.hot,
                 total_pages_freed := s.total_pages_freed + 1 } := by
      simp [pmm_free_pages, ha, Nat.not_le.mpr hr, hb, hfree, hroom]
    rw [hfree']
    have hlow : ¬ (s.total_memory_pages - s.used_memory_pages
        < LOW_MEMORY_THRESHOLD) := by
      unfold LOW_MEMORY_THRESHOLD PAGE_SIZE at *
      omega
    simp [pmm_alloc_pages, hlow]

/-- C9 witness: the LIFO reuse property at a concrete state and frame. -/
theorem C9_witness :
    ((0x5000 : Nat) ≠ 0 ∧
     0x5000 / PAGE_SIZE < c9WitnessState.total_memory_pages ∧
     0x5000 / PAGE_SIZE ∈ c9WitnessState.bitmap ∧
     LOW_MEMORY_THRESHOLD * 2 <
       c9WitnessState.total_memory_pages - c9WitnessState.used_memory_pages ∧
     c9WitnessState.hot.length < PAGE_CACHE_SIZE) ∧
    (pmm_alloc_pages (pmm_free_pages c9WitnessState 0x5000 1) 1).1 = 0x5000 :=
  ⟨by decide,
   C9_first_alloc_and_hot_cache_lifo.2 c9WitnessState 0x5000 (by decide)
     (by decide) (by decide) (by decide) (by decide)⟩

/-! ### C10: allocation-size cap -/

/-- C10: pmm_alloc_pages fails, returning 0 and leaving the bitmap, the
used-page counter, the caches and the page counters unchanged, for every
request of 0 pages or of more than 1024 pages; only alloc_requests (and, for
oversized requests, alloc_failures) change. -/
theorem C10_alloc_size_cap (s : PmmState) (n : Nat) (h : n = 0 ∨ 1024 < n) :
    (pmm_alloc_pages s n).1 = 0 ∧
    (pmm_alloc_pages s n).2.bitmap = s.bitmap ∧
    (pmm_alloc_pages s n).2.used_memory_pages = s.used_memory_pages ∧
    (pmm_alloc_pages s n).2.hot = s.hot ∧
    (pmm_alloc_pages s n).2.cold = s.cold ∧
    (pmm_alloc_pages s n).2.total_memory_pages = s.total_memory_pages ∧
    (pmm_alloc_pages s n).2.total_pages_allocated = s.total_pages_allocated ∧
    (pmm_alloc_pages s n).2.total_pages_freed = s.total_pages_freed ∧
    (pmm_alloc_pages s n).2.alloc_requests = s.alloc_requests + 1 ∧
    (pmm_alloc_pages s n).2.alloc_failures =
      (if n = 0 then s.alloc_failures else s.alloc_failures + 1) := by
  rcases h with rfl | hn
  · simp [pmm_alloc_pages]
  · have hn0 : ¬ n = 0 := by omega
    simp [pmm_alloc_pages, hn0, hn]

/-- C10 witness: the cap at the concrete oversized request 2000. -/
theorem C10_witness :
    ((2000 : Nat) = 0 ∨ 1024 < 2000) ∧
    (pmm_alloc_pages c1State 2000).1 = 0 ∧
    (pmm_alloc_pages c1State 2000).2.bitmap = c1State.bitmap ∧
    (pmm_alloc_pages c1State 2000).2.used_memory_pages =
      c1State.used_memory_pages := by
  have h := C10_alloc_size_cap c1State 2000 (by decide)
  exact ⟨by decide, h.1, h.2.1, h.2.2.1⟩

/-! ### C3: fork -/

/-- C3: scheduler_create_task_fork always fails.  It passes a NULL entry point
to scheduler_create_task, which rejects it, so fork returns -1 and leaves the
scheduler untouched: no task is created, no address space is cloned and no
stack is copied. -/
theorem C3_fork_always_fails (s : SchedulerState) :
    scheduler_create_task_fork s = (-1, s) := rfl

/-! ### C6: work stealing -/

/-- C6 counterexample: with CPU 0 idle and CPU 1 holding three ready tasks
whose head is pinned to CPU 1 by its affinity mask, balance_load(0) steals
that head onto CPU 0 anyway; and with CPU 1's load exactly 2 (two above CPU
0's load of 0), balance_load(0) steals nothing because the code requires the
victim's load to exceed 2. -/
theorem C6_counterexample :
    ((balance_load c6State 0).rq 0).ready_queue
        = [{ c6TaskA with last_cpu := 0 }] ∧
    c6TaskA.cpu_affinity &&& (1 <<< 0) = 0 ∧
    (balance_load c6State 0).load_balances = 1 ∧
    ((balance_load c6State2 0).rq 0).ready_queue = [] ∧
    (balance_load c6State2 0).load_balances = 0 := by
  decide

/-- C6 (amended): balance_load steals only when the balancing CPU's load is 0,
and only when the victim selected by its scan (the first CPU whose load
exceeds the running maximum by at least 2, not necessarily the most loaded)
has recorded load greater than 2.  It then removes exactly one task from the
victim queue's head, sets its last_cpu to the thief, and appends it to the
thief's queue; the task's affinity mask is never consulted. -/
theorem C6_steal_discipline (s : SchedulerState) (cpu v : Nat) (ml : Nat)
    (t : task_t) (rest : List task_t)
    (hvc : v ≠ cpu)
    (hidle : (s.rq cpu).load = 0)
    (hscan : balanceScan s cpu = (Int.ofNat v, ml))
    (hml : 2 < ml)
    (hq : (s.rq v).ready_queue = t :: rest) :
    ((balance_load s cpu).rq cpu).ready_queue
        = (s.rq cpu).ready_queue ++ [{ t with last_cpu := Int.ofNat cpu }] ∧
    ((balance_load s cpu).rq v).ready_queue = rest ∧
    (balance_load s cpu).load_balances = s.load_balances + 1 := by
  have h1 : ¬ 0 < (s.rq cpu).load := by omega
  have hdq : scheduler_dequeue s v
      = (some t, setRq s v { s.rq v with ready_queue := rest, load := (s.rq v).load - 1 }) := by
    unfold scheduler_dequeue
    rw [hq]
  simp only [balance_load, h1, if_false, hscan]
  rw [if_pos ⟨Int.ofNat_nonneg v, hml⟩]
  have htn : (Int.ofNat v).toNat = v := rfl
  simp only [htn]
  rw [hdq]
  refine ⟨?_, ?_, ?_⟩ <;> simp [scheduler_enqueue, setRq, hvc, Ne.symm hvc]

/-- C6 witness: the amended stealing discipline at the concrete two-CPU
state. -/
theorem C6_witness :
    ((c6State.rq 0).load = 0 ∧
     balanceScan c6State 0 = (Int.ofNat 1, 3) ∧
     (c6State.rq 1).ready_queue = [c6TaskA, c6TaskB, c6TaskC]) ∧
    (((balance_load c6State 0).rq 0).ready_queue
        = (c6State.rq 0).ready_queue ++ [{ c6TaskA with last_cpu := Int.ofNat 0 }] ∧
     ((balance_load c6State 0).rq 1).ready_queue = [c6TaskB, c6TaskC] ∧
     (balance_load c6State 0).load_balances = c6State.load_balances + 1) :=
  ⟨by decide,
   C6_steal_discipline c6State 0 1 3 c6TaskA [c6TaskB, c6TaskC]
     (by decide) (by decide) (by decide) (by decide) (by decide)⟩

/-! ### C7: adaptive quantum -/

/-- C7 counterexample: a fresh task that calls yield_now 11 times in a row is
classified COMPUTE with quantum 20 at its next slice expiry, not interactive
with quantum 5.  scheduler_tick increments cpu_time before reclassifying, so
detect_workload sees cpu_time = 1, io_wait_time = 0, a CPU share of 100% > 80%,
and returns compute before the voluntary-yield rule is ever reached. -/
theorem C7_counterexample :
    ((scheduler_tick (scheduler_yield^[11] c7State)).rq 0).running_task =
      some { c7Task with cpu_time := 1, voluntary_yields := 11,
                         workload := .compute, time_slice := 20,
                         ticks_remaining := 20 } := by
  decide

/-- balance_load never changes any CPU's running task. -/
theorem balance_load_running (s : SchedulerState) (cpu j : Nat) :
    ((balance_load s cpu).rq j).running_task = (s.rq j).running_task := by
  unfold balance_load
  by_cases h1 : 0 < (s.rq cpu).load
  · simp [h1]
  · simp only [h1, if_false]
    by_cases h2 : 0 ≤ (balanceScan s cpu).1 ∧ 2 < (balanceScan s cpu).2
    · simp only [h2, if_true]
      generalize (balanceScan s cpu).1.toNat = w
      rcases hq : (s.rq w).ready_queue with _ | ⟨t, rest⟩
      · simp [scheduler_dequeue, hq]
      · simp only [scheduler_dequeue, hq, scheduler_enqueue, setRq]
        by_cases hj : j = cpu <;> by_cases hj2 : j = w <;>
          simp [hj, hj2] <;> split <;> simp_all
    · simp [h2]

/-- detect_workload classifies any non-realtime task with zero io_wait_time
and nonzero cpu_time as compute: its CPU share is 100% > 80%. -/
theorem detect_workload_compute (c : task_t)
    (hp : ¬ c.priority ≤ PRIORITY_RT_MAX) (hi : c.io_wait_time = 0)
    (hc : 0 < c.cpu_time) : detect_workload c = .compute := by
  have htot : ¬ (c.cpu_time + c.io_wait_time = 0) := by omega
  have hdiv : c.cpu_time * 100 / (c.cpu_time + c.io_wait_time) = 100 := by
    rw [hi, Nat.add_zero]
    exact Nat.mul_div_cancel_left 100 hc
  have hiop : c.io_wait_time * 100 / (c.cpu_time + c.io_wait_time) = 0 := by
    rw [hi]; simp
  simp [detect_workload, hp, htot, hdiv, hiop, IO_WAIT_THRESHOLD,
    CPU_INTENSIVE_MIN]

/-- scheduler_schedule is the identity when the CPU-0 ready queue is empty. -/
theorem scheduler_schedule_empty (s : SchedulerState)
    (h : (s.rq 0).ready_queue = []) : scheduler_schedule s = s := by
  unfold scheduler_schedule
  simp [scheduler_dequeue, h]

/-- C7 (amended): classification is recomputed at slice expiry from the
listed rules and the quantum table realtime=2, interactive=5, io=10,
compute=20; but scheduler_tick increments cpu_time before reclassifying and
io_wait_time is never incremented anywhere, so every non-realtime task is
classified via a CPU share of 100% > 80% as compute and receives quantum 20
at slice expiry.  In particular a task that yielded 11 times in a row gets
workload compute and quantum 20 at its next tick (not interactive and 5),
and a task consuming full slices is classified compute with quantum 20 as
the claim states. -/
theorem C7_slice_expiry_classification (s : SchedulerState) (t : task_t)
    (hrun : (s.rq 0).running_task = some t)
    (hq : (s.rq 0).ready_queue = [])
    (hprio : ¬ t.priority ≤ PRIORITY_RT_MAX)
    (hio : t.io_wait_time = 0)
    (hrem : t.ticks_remaining ≤ 1) :
    ((scheduler_tick s).rq 0).running_task =
      some { t with cpu_time := t.cpu_time + 1, workload := .compute,
                    time_slice := 20, ticks_remaining := 20 } ∧
    get_time_quantum .realtime = 2 ∧ get_time_quantum .interactive = 5 ∧
    get_time_quantum .io_bound = 10 ∧ get_time_quantum .compute = 20 := by
  refine ⟨?_, rfl, rfl, rfl, rfl⟩
  have hrem2 : t.ticks_remaining = 0 ∨ t.ticks_remaining = 1 := by omega
  obtain ⟨tid, tst, tstt, tsb, tpr, tdp, tts, trem, twl, tct, tio, tlr, tvy,
    taf, tlc, tvm, tfr⟩ := t
  simp only at hio hrem2
  subst hio
  have hdet : detect_workload
      ⟨tid, tst, tstt, tsb, tpr, tdp, tts, 0, twl, tct + 1, 0, tlr, tvy,
        taf, tlc, tvm, tfr⟩ = .compute :=
    detect_workload_compute _ hprio rfl (Nat.succ_pos tct)
  rcases hrem2 with h | h <;> subst h <;>
    simp [scheduler_tick, hrun, hq, hdet, get_time_quantum, setRq,
      scheduler_schedule_empty] <;>
    split <;> simp [balance_load_running, setRq]

/-- C7 witness: the amended classification at a concrete state whose running
task has one tick left, no io wait, priority 100. -/
theorem C7_witness :
    ((c7WState.rq 0).running_task = some c7WTask ∧
     (c7WState.rq 0).ready_queue = [] ∧
     ¬ c7WTask.priority ≤ PRIORITY_RT_MAX ∧
     c7WTask.io_wait_time = 0 ∧ c7WTask.ticks_remaining ≤ 1) ∧
    ((scheduler_tick c7WState).rq 0).running_task =
      some { c7WTask with cpu_time := c7WTask.cpu_time + 1,
                          workload := .compute, time_slice := 20,
                          ticks_remaining := 20 } :=
  ⟨by decide,
   (C7_slice_expiry_classification c7WState c7WTask (by decide) (by decide)
     (by decide) (by decide) (by decide)).1⟩

/-! ### C8: kfree and size classes -/

/-- C8: kfree does not return objects to their owning class.  After
kheap_init, kmalloc(24) hands out the head object of the 32-byte class
(class 1) at 0x3005E0, but kfree of that pointer pushes it onto class 0's
free list with stored size 16: the class-determination loop is a stub that
always picks class 0, so the stored size (16) differs from the object size
of the class the pointer was allocated from (32). -/
theorem C8_kfree_wrong_class :
    get_size_class_index 32 = some 1 ∧ sizeClassSize 1 = 32 ∧
    (kmalloc (kheap_init kheapBase) 24).1 = 0x3005E0 ∧
    ((kfree (kmalloc (kheap_init kheapBase) 24).2
        (kmalloc (kheap_init kheapBase) 24).1).size_class_allocators
          0).free_list.head? = some ⟨0x3005E0, 16⟩ ∧
    (16 : Nat) ≠ 32 := by
  decide

/-! ### C2: copy-on-write faults -/

/-- C2: the COW branch of the page-fault handler never decrements any frame
reference count and never frees the old frame.  On a write fault (error code
3) at 0x400000, with the leaf PTE present and read-only on frame 7 and the
VMA PRIVATE and writable, the handler allocates frame 8, copies, repoints
the PTE writable at frame 8 (word 0x8007), but frame 7 stays marked
allocated in the bitmap, nothing is freed to the PFA, and no reference
count exists in the code at all. -/
theorem C2_cow_leaves_old_frame_allocated :
    (vmm_page_fault_handler c2State 0x400000 3).mac.mem 0x4000 = 0x8007 ∧
    (vmm_page_fault_handler c2State 0x400000 3).cow_faults = 1 ∧
    7 ∈ (vmm_page_fault_handler c2State 0x400000 3).mac.pmm.bitmap ∧
    (vmm_page_fault_handler c2State 0x400000 3).mac.pmm.total_pages_freed
      = 0 ∧
    (vmm_page_fault_handler c2State 0x400000 3).mac.pmm.used_memory_pages
      = c2State.mac.pmm.used_memory_pages + 1 := by
  decide

/-! ### C5: permission faults -/

/-- C5 counterexample: a read fault (error code 4, no write bit) at an
address inside a VMA with protection PROT_NONE is not reported as a
permission fault: the handler demand-allocates frame 8 and installs a
present, user, non-writable, no-execute PTE (word 0x8000000000008005)
instead of leaving the page unmapped. -/
theorem C5_counterexample :
    vmm_find_vma c5State.ctx.vma_list 0x400000 = some c5Vma ∧
    c5Vma.prot = PROT_NONE ∧
    (vmm_page_fault_handler c5State 0x400000 4).mac.mem 0x4000
      = 0x8000000000008005 ∧
    Nat.testBit 0x8000000000008005 0 = true ∧
    (vmm_page_fault_handler c5State 0x400000 4).page_faults_minor = 1 := by
  decide

/-- C5 (amended): only write faults are permission-checked.  For every fault
whose error code has the write bit set, landing in a VMA whose protection
lacks PROT_WRITE, the handler returns having changed nothing but the
page_faults_total counter: no frame is allocated and no PTE becomes present.
Read and execute permission violations are not detected; a read fault
inside a PROT_NONE VMA installs a fresh mapping (see the counterexample). -/
theorem C5_write_permission_fault_unresolved (st : VmmState)
    (fault_addr error_code : Nat) (vma : vma_t)
    (hfind : vmm_find_vma st.ctx.vma_list fault_addr = some vma)
    (hw : error_code &&& PF_WRITE ≠ 0)
    (hp : vma.prot &&& PROT_WRITE = 0) :
    vmm_page_fault_handler st fault_addr error_code =
      { st with page_faults_total := st.page_faults_total + 1 } := by
  simp [vmm_page_fault_handler, hfind, hw, hp]

/-- C5 witness: a write fault on a read-only VMA at a concrete state. -/
theorem C5_witness :
    (vmm_find_vma c5wState.ctx.vma_list 0x400000 = some c5wVma ∧
     (2 : Nat) &&& PF_WRITE ≠ 0 ∧ c5wVma.prot &&& PROT_WRITE = 0) ∧
    vmm_page_fault_handler c5wState 0x400000 2 =
      { c5wState with page_faults_total := c5wState.page_faults_total + 1 } :=
  ⟨by decide,
   C5_write_permission_fault_unresolved c5wState 0x400000 2 c5wVma
     (by decide) (by decide) (by decide)⟩

/-! ### C4: munmap -/

/-- C4 counterexample: munmap does not split.  With a single VMA
[0x1000, 0x4000) and no present pages, vmm_munmap(0x1000, 0x1000) — whose
range [0x1000, 0x2000) only partially overlaps the VMA — removes the whole
VMA: afterwards the list is empty and 0x3000, a page of the VMA outside the
unmapped range, is covered by no VMA. -/
theorem C4_counterexample :
    vmm_find_vma c4State.ctx.vma_list 0x3000 = some c4Vma ∧
    ¬ ((0x1000 : Nat) ≤ 0x3000 ∧ (0x3000 : Nat) < 0x2000) ∧
    (vmm_munmap c4State 0x1000 0x1000).ctx.vma_list = [] ∧
    vmm_find_vma (vmm_munmap c4State 0x1000 0x1000).ctx.vma_list 0x3000
      = none := by
  decide

/-- On a VMA list sorted by start, the munmap walk removes exactly the VMAs
intersecting [s, e), each in its entirety. -/
theorem vmm_munmap_go_filter (page_dir s e : Nat) (m : Machine)
    (l : List vma_t) (hs : List.Pairwise (fun a b => a.start ≤ b.start) l) :
    (vmm_munmap_go page_dir s e m l).1
      = l.filter (fun v => !(decide (s < v.fin ∧ v.start < e))) := by
  induction l generalizing m with
  | nil => rfl
  | cons v rest ih =>
    rcases List.pairwise_cons.mp hs with ⟨hv, hrest⟩
    by_cases hint : s < v.fin ∧ v.start < e
    · have hbreak : ¬ e ≤ v.start := by omega
      have h1 : (vmm_munmap_go page_dir s e m (v :: rest)).1
          = (vmm_munmap_go page_dir s e
              (vmm_unmap_range m page_dir v.start v.fin) rest).1 := by
        simp only [vmm_munmap_go]
        rw [if_neg hbreak, if_pos hint]
      rw [h1, ih _ hrest, List.filter_cons_of_neg]
      simp [hint]
    · by_cases hbreak : e ≤ v.start
      · have h1 : (vmm_munmap_go page_dir s e m (v :: rest)).1 = v :: rest := by
          simp only [vmm_munmap_go]
          rw [if_pos hbreak]
        rw [h1, List.filter_cons_of_pos]
        · congr 1
          symm
          apply List.filter_eq_self.mpr
          intro r hr
          have hle := hv r hr
          simp only [Bool.not_eq_true', decide_eq_false_iff_not]
          rintro ⟨hh1, hh2⟩
          omega
        · simp [hint]
      · have h1 : (vmm_munmap_go page_dir s e m (v :: rest)).1
            = v :: (vmm_munmap_go page_dir s e m rest).1 := by
          simp only [vmm_munmap_go]
          rw [if_neg hbreak, if_neg hint]
        rw [h1, ih _ hrest, List.filter_cons_of_pos]
        simp [hint]

/-- C4 (amended): vmm_munmap removes every VMA that intersects
[addr, addr + ALIGN_UP(length)) in its entirety — calling vmm_unmap_page on
every page of the whole VMA, not only the intersection — and performs no
split: on a sorted VMA list the resulting list is exactly the
non-intersecting VMAs, so pages of a partially overlapped VMA outside the
range lose their VMA coverage and their mappings. -/
theorem C4_munmap_removes_whole_vmas (st : VmmState) (addr length : Nat)
    (hs : List.Pairwise (fun a b => a.start ≤ b.start) st.ctx.vma_list) :
    (vmm_munmap st addr length).ctx.vma_list
      = st.ctx.vma_list.filter
          (fun v => !(decide (addr < v.fin ∧
            v.start < addr + ALIGN_UP length PAGE_SIZE))) := by
  unfold vmm_munmap
  exact vmm_munmap_go_filter _ _ _ _ _ hs

/-- C4 witness: the amended removal behaviour on a concrete sorted list with
one partial overlap. -/
theorem C4_witness :
    List.Pairwise (fun a b => a.start ≤ b.start) c4State.ctx.vma_list ∧
    (vmm_munmap c4State 0x1000 0x1000).ctx.vma_list
      = c4State.ctx.vma_list.filter
          (fun v => !(decide ((0x1000 : Nat) < v.fin ∧
            v.start < 0x1000 + ALIGN_UP 0x1000 PAGE_SIZE))) :=
  ⟨by decide, C4_munmap_removes_whole_vmas c4State 0x1000 0x1000 (by decide)⟩
